import Mathlib

/-!
Verification of the weather push client (`src/index.js`).

The development shallowly embeds the dynamically-typed JavaScript code:

* `JVal` models JSON/JavaScript runtime values (with `undefined` for the result
  of reading an absent property); `JNum` models JavaScript numbers as exact
  rationals extended with `NaN` and the two infinities (no floating-point
  rounding is modelled; the inputs of interest are small decimals).
* `truthy`, `jsNumber`, `jsToString` model JavaScript truthiness and the
  `Number(..)` / `String(..)` coercions. `strToNum` models `Number(string)`
  for trimmed decimal, hex/octal/binary and `Infinity` literals exactly as
  the ECMAScript `StringNumericLiteral` grammar prescribes (scientific
  printing of extreme magnitudes is not modelled, which no theorem relies on).
* `mapToPrimitives` is the line-by-line translation of the normalizer in
  `src/index.js` lines 18-90, `pushObservation` of lines 93-131 (with the
  external fetch/upsert collaborators supplied as an `Env`), and
  `startPusher` / `stopPusher` of lines 157-189.
* The runtime `Date` built-in (`new Date(..)` / `toISOString`) is an external
  capability; theorems are stated over an arbitrary `DateSpec`, and the
  concrete `dateModel` (ISO-8601 parsing and formatting over the proleptic
  Gregorian calendar) instantiates it for closed evaluations.
-/

namespace ClientApi

/-- JavaScript numbers: exact rationals extended with NaN and infinities. -/
inductive JNum where
  | num (q : Rat)
  | nan
  | inf
  | negInf
deriving DecidableEq

/-- JavaScript runtime values as produced by `JSON.parse` plus `undefined`,
the result of reading an absent property. -/
inductive JVal where
  | undefined
  | null
  | bool (b : Bool)
  | num (n : JNum)
  | str (s : String)
  | obj (fields : List (String × JVal))
  | arr (elems : List JVal)

/-- First binding of a key in a JS object literal (property lookup);
absent keys read as `undefined`. -/
def lookupField : List (String × JVal) → String → JVal
  | [], _ => .undefined
  | (k, v) :: rest, key => if k = key then v else lookupField rest key

/-- Property read `v[k]` on a value already known not to be null/undefined:
objects look the key up, other primitives yield `undefined` for the keys
this program reads. -/
def jsGet (v : JVal) (k : String) : JVal :=
  match v with
  | .obj fs => lookupField fs k
  | _ => .undefined

/-- JavaScript truthiness. -/
def truthy : JVal → Bool
  | .undefined => false
  | .null => false
  | .bool b => b
  | .num (.num q) => decide (q ≠ 0)
  | .num .nan => false
  | .num .inf => true
  | .num .negInf => true
  | .str s => decide (s ≠ "")
  | .obj _ => true
  | .arr _ => true

/-- Test for `undefined` (the `typeof x !== "undefined"` guards). -/
def isUndefined : JVal → Bool
  | .undefined => true
  | _ => false

/-- Strict equality against the literal string sentinel: `x === "N/A"`. -/
def isNA : JVal → Bool
  | .str s => decide (s = "N/A")
  | _ => false

/-- Whitespace trimmed by `Number(string)` (ECMAScript StrWhiteSpaceChar,
restricted to the common characters). -/
def isJsSpace (c : Char) : Bool :=
  c = ' ' || c = '\t' || c = '\n' || c = '\r' ||
  c = Char.ofNat 11 || c = Char.ofNat 12 || c = Char.ofNat 0xA0 || c = Char.ofNat 0xFEFF

/-- Trim leading and trailing JS whitespace from a character list. -/
def trimJs (cs : List Char) : List Char :=
  ((cs.dropWhile isJsSpace).reverse.dropWhile isJsSpace).reverse

/-- Digit value of a character in a base up to 16, if any. -/
def digitVal (base : Nat) (c : Char) : Option Nat :=
  let v :=
    if c.isDigit then some (c.toNat - 48)
    else if 'a' ≤ c && c ≤ 'f' then some (c.toNat - 87)
    else if 'A' ≤ c && c ≤ 'F' then some (c.toNat - 55)
    else none
  match v with
  | some d => if d < base then some d else none
  | none => none

/-- Longest digit run in the given base at the head of the list. -/
def takeDigits (base : Nat) : List Char → List Nat × List Char
  | [] => ([], [])
  | c :: rest =>
    match digitVal base c with
    | some d => let (ds, r) := takeDigits base rest; (d :: ds, r)
    | none => ([], c :: rest)

/-- Value of a digit list in the given base. -/
def digitsToNat (base : Nat) (ds : List Nat) : Nat :=
  ds.foldl (fun a d => a * base + d) 0

/-- Ten to a signed power, as a rational. -/
def ratPow10 (e : Int) : Rat :=
  if 0 ≤ e then ((10 : Rat) ^ e.toNat) else 1 / ((10 : Rat) ^ (-e).toNat)

/-- Signed exponent part after `e`/`E`: optional sign, one or more digits,
end of input. -/
def parseExpSigned (cs : List Char) : Option Int :=
  let core : List Char → Option Nat := fun r =>
    let (ds, rest) := takeDigits 10 r
    if ds ≠ [] ∧ rest = [] then some (digitsToNat 10 ds) else none
  match cs with
  | '+' :: r => (core r).map Int.ofNat
  | '-' :: r => (core r).map (fun n => -(n : Int))
  | r => (core r).map Int.ofNat

/-- Optional exponent suffix applied to a mantissa; anything else trailing
makes the literal invalid. -/
def parseDecTail (m : Rat) : List Char → Option Rat
  | [] => some m
  | 'e' :: r => (parseExpSigned r).map (fun e => m * ratPow10 e)
  | 'E' :: r => (parseExpSigned r).map (fun e => m * ratPow10 e)
  | _ => none

/-- Unsigned decimal literal `digits [. digits] [exp]` or `. digits [exp]`. -/
def parseDecimal (cs : List Char) : Option Rat :=
  let (ip, r1) := takeDigits 10 cs
  match r1 with
  | '.' :: r2 =>
    let (fp, r3) := takeDigits 10 r2
    if ip = [] ∧ fp = [] then none
    else
      parseDecTail
        ((digitsToNat 10 ip : Rat) + (digitsToNat 10 fp : Rat) / (10 : Rat) ^ fp.length)
        r3
  | _ =>
    if ip = [] then none else parseDecTail (digitsToNat 10 ip : Rat) r1

/-- Unsigned numeric literal: `Infinity` or a decimal literal. -/
def parseUnsigned (cs : List Char) : Option JNum :=
  if cs = ['I', 'n', 'f', 'i', 'n', 'i', 't', 'y'] then some .inf
  else (parseDecimal cs).map .num

/-- Radix-prefixed literal body (after `0x`/`0o`/`0b`): digits to the end. -/
def parseRadix (base : Nat) (cs : List Char) : JNum :=
  let (ds, rest) := takeDigits base cs
  if ds ≠ [] ∧ rest = [] then .num (digitsToNat base ds : Rat) else .nan

/-- The `Number(string)` coercion: trim, empty means zero, optional sign on
decimal/`Infinity` literals, unsigned radix prefixes, otherwise NaN. -/
def strToNum (s : String) : JNum :=
  match trimJs s.toList with
  | [] => .num 0
  | '+' :: r => (parseUnsigned r).getD .nan
  | '-' :: r =>
    match parseUnsigned r with
    | some .inf => .negInf
    | some (.num q) => .num (-q)
    | _ => .nan
  | '0' :: c :: r =>
    if c = 'x' ∨ c = 'X' then parseRadix 16 r
    else if c = 'o' ∨ c = 'O' then parseRadix 8 r
    else if c = 'b' ∨ c = 'B' then parseRadix 2 r
    else (parseUnsigned ('0' :: c :: r)).getD .nan
  | cs => (parseUnsigned cs).getD .nan

/-- Multiplicity of `p` in `n` together with the cofactor (fuelled). -/
def factorCount (p : Nat) : Nat → Nat → Nat × Nat
  | 0, n => (0, n)
  | fuel + 1, n =>
    if n % p = 0 ∧ n ≠ 0 ∧ 1 < p then
      let (c, r) := factorCount p fuel (n / p)
      (c + 1, r)
    else (0, n)

/-- Left-pad a numeral string with zeros to the given width. -/
def padZeros (width : Nat) (s : String) : String :=
  String.mk (List.replicate (width - s.length) '0') ++ s

/-- Render a rational the way JavaScript prints a number: integers as
decimal numerals, dyadic/decimal fractions in positional decimal form.
Rationals outside the binary-float value space (which never arise from
JSON input) fall back to a fraction rendering; exponent shorthand for
extreme magnitudes is not modelled. -/
def ratToJsString (q : Rat) : String :=
  if q.den = 1 then toString q.num
  else
    let (k2, r2) := factorCount 2 q.den q.den
    let (k5, r5) := factorCount 5 r2 r2
    if r5 = 1 then
      let k := max k2 k5
      let scaled := q.num.natAbs * 10 ^ k / q.den
      let sign := if q.num < 0 then "-" else ""
      sign ++ toString (scaled / 10 ^ k) ++ "." ++ padZeros k (toString (scaled % 10 ^ k))
    else toString q.num ++ "/" ++ toString q.den

/-- Render a JS number as `String(..)` does. -/
def jnumToString : JNum → String
  | .nan => "NaN"
  | .inf => "Infinity"
  | .negInf => "-Infinity"
  | .num q => ratToJsString q

mutual

/-- The `String(..)` coercion; the flag records whether the value is being
rendered as an array element (where null/undefined print as empty). -/
def jsToStringAux : Bool → JVal → String
  | inArr, .undefined => if inArr then "" else "undefined"
  | inArr, .null => if inArr then "" else "null"
  | _, .bool b => if b then "true" else "false"
  | _, .num n => jnumToString n
  | _, .str s => s
  | _, .obj _ => "[object Object]"
  | _, .arr es => String.intercalate "," (jsToStringList es)

/-- Stringify every element of an array for the comma join. -/
def jsToStringList : List JVal → List String
  | [] => []
  | v :: rest => jsToStringAux true v :: jsToStringList rest

end

/-- The `String(..)` coercion at top level. -/
def jsToString : JVal → String := jsToStringAux false

/-- The `Number(..)` coercion: arrays coerce through their string join,
plain objects to NaN, exactly as ToPrimitive prescribes for JSON data. -/
def jsNumber : JVal → JNum
  | .undefined => .nan
  | .null => .num 0
  | .bool b => .num (if b then 1 else 0)
  | .num n => n
  | .str s => strToNum s
  | .obj _ => .nan
  | .arr es => strToNum (String.intercalate "," (jsToStringList es))

/-- External `Date` capability: `parse v` is the time value of `new Date(v)`
(`none` for an Invalid Date), `nowMs` the time value of `new Date()` (always
valid), and `iso` the `toISOString` rendering of a valid time value. -/
structure DateSpec where
  parse : JVal → Option Int
  nowMs : Int
  iso : Int → String

/-- Error a JavaScript evaluation of the normalizer can raise: reading a
property of null/undefined, or `toISOString` on an Invalid Date. -/
inductive JsError where
  | typeError
  | rangeError
deriving DecidableEq

/-- Property read `v[k]` as an effectful step: throws TypeError on
null/undefined, otherwise reads the property. -/
def getProp (v : JVal) (k : String) : Except JsError JVal :=
  match v with
  | .undefined => .error .typeError
  | .null => .error .typeError
  | w => .ok (jsGet w k)

/-- Scalar auxiliary fields of the normalized record (`rawPayload` object
built at lines 70-78 of `src/index.js`). -/
structure RawPayload where
  icon : Option String
  humidity : Option JNum
  pressure : Option JNum
  wind_gust : Option JNum
  wind_deg : Option JNum
  rain_3h : Option JNum
  snow_3h : Option JNum
deriving DecidableEq

/-- Normalized observation returned by `mapToPrimitives`
(lines 80-89 of `src/index.js`). -/
structure Normalized where
  observed_at : String
  location : String
  clouds : Option JNum
  main : Option JNum
  precipitation : Option JNum
  weather : Option String
  wind : Option JNum
  raw_payload : RawPayload
deriving DecidableEq

/-- Field pattern `(o && o.k) ? String(o.k) : null` used for the weather
description and icon. -/
def strField (ov : JVal) (key : String) : Option String :=
  if truthy ov && truthy (jsGet ov key) then some (jsToString (jsGet ov key)) else none

/-- Field pattern `(o && typeof o.k !== "undefined") ? Number(o.k) : null`
used for the seven plain numeric fields. -/
def numField (ov : JVal) (key : String) : Option JNum :=
  if truthy ov && !isUndefined (jsGet ov key) then some (jsNumber (jsGet ov key)) else none

/-- Field pattern of lines 41-47: like `numField` but mapping the literal
string sentinel to null before coercion (`o.k === "N/A" ? null : Number(o.k)`);
used only for the rain and snow amounts. -/
def naNumField (ov : JVal) (key : String) : Option JNum :=
  if truthy ov && !isUndefined (jsGet ov key) then
    if isNA (jsGet ov key) then none else some (jsNumber (jsGet ov key))
  else none

/-- The location name of lines 21-23:
`(w.location && w.location.name) ? String(w.location.name) : "Unknown"`. -/
def computeLocation (locv : JVal) : String :=
  if truthy locv && truthy (jsGet locv "name") then jsToString (jsGet locv "name")
  else "Unknown"

/-- The pure part of `mapToPrimitives` once every property of the raw
document has been read and the observation time `ms` resolved: the local
bindings of lines 21-78 and the record literal of lines 80-89. -/
def buildRecord (d : DateSpec) (ms : Int)
    (locv cloudsv mainv precv weatherv windv : JVal) : Normalized :=
  let rain3h := naNumField precv "rain_3h_mm"
  let snow3h := naNumField precv "snow_3h_mm"
  { observed_at := d.iso ms
    location := computeLocation locv
    clouds := numField cloudsv "cloudiness_percent"
    main := numField mainv "temperature_c"
    precipitation := rain3h.or snow3h
    weather := strField weatherv "description"
    wind := numField windv "speed_ms"
    raw_payload :=
      { icon := strField weatherv "icon"
        humidity := numField mainv "humidity_percent"
        pressure := numField mainv "pressure_hpa"
        wind_gust := numField windv "gust_ms"
        wind_deg := numField windv "direction_degrees"
        rain_3h := rain3h
        snow_3h := snow3h } }

/-- The normalizer `mapToPrimitives` of `src/index.js` lines 18-90. The
property reads are hoisted ahead of the pure local computations (all reads
are on `weatherData` itself or are guarded by a truthiness check, so the
reordering preserves both value and raised error); the `toISOString` call of
line 81 raises RangeError when line 19 produced an Invalid Date. -/
def mapToPrimitives (d : DateSpec) (weatherData : JVal) : Except JsError Normalized := do
  let dtv ← getProp weatherData "datetime_utc"
  let locv ← getProp weatherData "location"
  let cloudsv ← getProp weatherData "clouds"
  let mainv ← getProp weatherData "main"
  let precv ← getProp weatherData "precipitation"
  let weatherv ← getProp weatherData "weather"
  let windv ← getProp weatherData "wind"
  match (if truthy dtv then d.parse dtv else some d.nowMs) with
  | none => throw JsError.rangeError
  | some ms => pure (buildRecord d ms locv cloudsv mainv precv weatherv windv)

/-- Days from the civil epoch 1970-01-01 for a proleptic Gregorian date
(the standard days-from-civil algorithm). -/
def daysFromCivil (y : Int) (m d : Nat) : Int :=
  let y' : Int := if m ≤ 2 then y - 1 else y
  let era : Int := (if 0 ≤ y' then y' else y' - 399) / 400
  let yoe : Nat := (y' - era * 400).toNat
  let mp : Nat := (m + 9) % 12
  let doy : Nat := (153 * mp + 2) / 5 + d - 1
  let doe : Nat := yoe * 365 + yoe / 4 - yoe / 100 + doy
  era * 146097 + doe - 719468

/-- Civil proleptic Gregorian date (year, month, day) of a day number
relative to 1970-01-01 (the standard civil-from-days algorithm). -/
def civilFromDays (z0 : Int) : Int × Nat × Nat :=
  let z : Int := z0 + 719468
  let era : Int := (if 0 ≤ z then z else z - 146096) / 146097
  let doe : Nat := (z - era * 146097).toNat
  let yoe : Nat := (doe - doe / 1460 + doe / 36524 - doe / 146096) / 365
  let y : Int := (yoe : Int) + era * 400
  let doy : Nat := doe - (365 * yoe + yoe / 4 - yoe / 100)
  let mp : Nat := (5 * doy + 2) / 153
  let d : Nat := doy - (153 * mp + 2) / 5 + 1
  let m : Nat := if mp < 10 then mp + 3 else mp - 9
  (if m ≤ 2 then y + 1 else y, m, d)

/-- Leap year test for the Gregorian calendar. -/
def isLeap (y : Int) : Bool := y % 4 = 0 && (y % 100 ≠ 0 || y % 400 = 0)

/-- Number of days in a month. -/
def daysInMonth (y : Int) (m : Nat) : Nat :=
  if m = 2 then (if isLeap y then 29 else 28)
  else if m = 4 ∨ m = 6 ∨ m = 9 ∨ m = 11 then 30
  else 31

/-- Decimal digit of a character, if any. -/
def charDigit (c : Char) : Option Nat :=
  if c.isDigit then some (c.toNat - 48) else none

/-- Exactly `n` decimal digits from the head of the list, with their value. -/
def parseDigitsAcc : Nat → Nat → List Char → Option (Nat × List Char)
  | 0, acc, cs => some (acc, cs)
  | _ + 1, _, [] => none
  | n + 1, acc, c :: cs =>
    match charDigit c with
    | some d => parseDigitsAcc n (acc * 10 + d) cs
    | none => none

/-- Consume one expected character. -/
def expectChar (c : Char) : List Char → Option (List Char)
  | [] => none
  | x :: xs => if x = c then some xs else none

/-- Millisecond part after the decimal point: one to three digits. -/
def parseFrac : List Char → Option (Nat × List Char)
  | [] => none
  | c1 :: r1 =>
    match charDigit c1 with
    | none => none
    | some d1 =>
      match r1 with
      | [] => some (d1 * 100, [])
      | c2 :: r2 =>
        match charDigit c2 with
        | none => some (d1 * 100, c2 :: r2)
        | some d2 =>
          match r2 with
          | [] => some (d1 * 100 + d2 * 10, [])
          | c3 :: r3 =>
            match charDigit c3 with
            | none => some (d1 * 100 + d2 * 10, c3 :: r3)
            | some d3 => some (d1 * 100 + d2 * 10 + d3, r3)

/-- Time-of-day part `HH:mm[:ss[.fff]]`, in milliseconds. -/
def parseTime (cs : List Char) : Option (Nat × List Char) := do
  let (hh, r1) ← parseDigitsAcc 2 0 cs
  let r2 ← expectChar ':' r1
  let (mm, r3) ← parseDigitsAcc 2 0 r2
  if 23 < hh ∨ 59 < mm then none
  else
    match r3 with
    | ':' :: r4 => do
      let (ss, r5) ← parseDigitsAcc 2 0 r4
      if 59 < ss then none
      else
        match r5 with
        | '.' :: r6 => do
          let (ms3, r7) ← parseFrac r6
          some (hh * 3600000 + mm * 60000 + ss * 1000 + ms3, r7)
        | _ => some (hh * 3600000 + mm * 60000 + ss * 1000, r5)
    | _ => some (hh * 3600000 + mm * 60000, r3)

/-- Timezone suffix `±HH:MM`, in minutes. -/
def tzHM (cs : List Char) : Option Int := do
  let (hh, r1) ← parseDigitsAcc 2 0 cs
  let r2 ← expectChar ':' r1
  let (mm, r3) ← parseDigitsAcc 2 0 r2
  if r3 = [] ∧ hh ≤ 23 ∧ mm ≤ 59 then some ((hh : Int) * 60 + mm) else none

/-- Timezone suffix: `Z`, explicit offset, or absent (read as UTC, matching
a runtime operating with TZ=UTC). -/
def parseTZ : List Char → Option Int
  | [] => some 0
  | ['Z'] => some 0
  | '+' :: r => tzHM r
  | '-' :: r => (tzHM r).map (fun x => -x)
  | _ => none

/-- Model of `new Date(string)` on the ISO-8601 formats the ECMAScript date
time string format prescribes: `YYYY-MM-DD[THH:mm[:ss[.fff]]][Z|±HH:MM]`;
anything else is an Invalid Date. -/
def isoParseMs (s : String) : Option Int := do
  let cs := s.toList
  let (y4, r1) ← parseDigitsAcc 4 0 cs
  let r2 ← expectChar '-' r1
  let (mo, r3) ← parseDigitsAcc 2 0 r2
  let r4 ← expectChar '-' r3
  let (dy, r5) ← parseDigitsAcc 2 0 r4
  if mo < 1 ∨ 12 < mo ∨ dy < 1 ∨ daysInMonth (y4 : Int) mo < dy then none
  else
    match r5 with
    | [] => some (86400000 * daysFromCivil (y4 : Int) mo dy)
    | 'T' :: r6 => do
      let (msod, r7) ← parseTime r6
      let off ← parseTZ r7
      some (86400000 * daysFromCivil (y4 : Int) mo dy + (msod : Int) - off * 60000)
    | _ => none

/-- Model of `new Date(v)` for a truthy primitive: strings are parsed,
numbers are time values (within the JS range), `true` coerces to 1;
objects and arrays (no numeric ToPrimitive path modelled) are invalid. -/
def jsDateParse : JVal → Option Int
  | .num (.num q) =>
    if q.den = 1 ∧ q.num.natAbs ≤ 8640000000000000 then some q.num else none
  | .num _ => none
  | .str s => isoParseMs s
  | .bool b => some (if b then 1 else 0)
  | _ => none

/-- Zero-pad to two digits. -/
def pad2 (n : Nat) : String := padZeros 2 (toString n)

/-- Zero-pad to three digits. -/
def pad3 (n : Nat) : String := padZeros 3 (toString n)

/-- Model of `Date.prototype.toISOString` on a valid time value
(years of common-era width four; expanded-year rendering not modelled). -/
def isoOfMs (ms : Int) : String :=
  let day := ms.fdiv 86400000
  let rem := (ms - day * 86400000).toNat
  let ymd := civilFromDays day
  let hh := rem / 3600000
  let mi := rem % 3600000 / 60000
  let ss := rem % 60000 / 1000
  let mss := rem % 1000
  padZeros 4 (toString ymd.1) ++ "-" ++ pad2 ymd.2.1 ++ "-" ++ pad2 ymd.2.2 ++
    "T" ++ pad2 hh ++ ":" ++ pad2 mi ++ ":" ++ pad2 ss ++ "." ++ pad3 mss ++ "Z"

/-- Concrete date capability used for closed evaluations; the current time
is 2025-10-11T00:00:00.000Z. -/
def dateModel : DateSpec :=
  { parse := jsDateParse
    nowMs := 1760140800000
    iso := isoOfMs }

/-- Row of the `weather_observations` table as assembled at lines 102-113
of `src/index.js`; `location_point` is always written as null. -/
structure DbRecord where
  id : String
  observed_at : String
  location : String
  location_point : Option String
  clouds : Option JNum
  main : Option JNum
  precipitation : Option JNum
  weather : Option String
  wind : Option JNum
  raw_payload : RawPayload
deriving DecidableEq

/-- Backing store: the logical rows of the table. -/
abbrev Store := List DbRecord

/-- Semantics of `upsert([record], onConflict id)`: one atomic write that
overwrites every row carrying the same id in place, or appends the record
when no such row exists. -/
def applyUpsert (store : Store) (r : DbRecord) : Store :=
  if store.any (fun x => x.id = r.id) then
    store.map (fun x => if x.id = r.id then r else x)
  else store ++ [r]

/-- Outcome of reading the response body as JSON. -/
inductive BodyOutcome where
  | invalidJson (msg : String)
  | json (v : JVal)

/-- Outcome of the `fetch(weatherUrl)` call: the transport either fails or
delivers a response with a status code and a body. -/
inductive FetchOutcome where
  | transportError (msg : String)
  | response (status : Nat) (body : BodyOutcome)

/-- External collaborators of one pipeline run: the date built-in, the
fetch outcome, and whether the store rejects the upsert (a rejected upsert
carries the error detail and writes nothing). -/
structure Env where
  date : DateSpec
  fetch : FetchOutcome
  upsertError : Option String

/-- Error detail of a failed run: a caught thrown exception (transport
failure, non-ok status, body-decode failure), a caught JavaScript fault
raised by the normalizer, or a store error returned by the upsert. -/
inductive PushError where
  | exception (msg : String)
  | jsError (e : JsError)
  | dbError (msg : String)
deriving DecidableEq

/-- Result value of `pushObservation`: the source returns
`ok true, data` or `ok false, error`, never raising. -/
inductive PushResult where
  | ok (data : List DbRecord)
  | err (e : PushError)
deriving DecidableEq

/-- Whether a result is the failure variant (`ok: false`). -/
def isErrResult : PushResult → Bool
  | .err _ => true
  | .ok _ => false

/-- One pipeline run, `pushObservation` of `src/index.js` lines 93-131:
fetch, require an ok status (200-299), decode JSON, normalize, then upsert
one record with the configured target id; every thrown error is caught and
returned as a failure result, and a store error is returned without a throw. -/
def pushObservation (tid : String) (env : Env) (store : Store) :
    PushResult × Store :=
  match env.fetch with
  | .transportError m => (.err (.exception m), store)
  | .response status body =>
    if status < 200 ∨ 300 ≤ status then
      (.err (.exception ("fetch status " ++ toString status)), store)
    else
      match body with
      | .invalidJson m => (.err (.exception m), store)
      | .json weatherData =>
        match mapToPrimitives env.date weatherData with
        | .error e => (.err (.jsError e), store)
        | .ok payload =>
          let record : DbRecord :=
            { id := tid
              observed_at := payload.observed_at
              location := payload.location
              location_point := none
              clouds := payload.clouds
              main := payload.main
              precipitation := payload.precipitation
              weather := payload.weather
              wind := payload.wind
              raw_payload := payload.raw_payload }
          match env.upsertError with
          | some m => (.err (.dbError m), store)
          | none => (.ok [record], applyUpsert store record)

/-- Store contents after a sequence of pipeline runs. -/
def runPushes (tid : String) (envs : List Env) (store : Store) : Store :=
  envs.foldl (fun st e => (pushObservation tid e st).2) store

/-- Scheduler state: the module-level `intervalHandle` of line 155 plus the
set of repeating timers the runtime actually holds (`fresh` feeds new timer
ids). -/
structure Sched where
  intervalHandle : Option Nat
  timers : List Nat
  fresh : Nat
deriving DecidableEq

/-- State at process start: no handle, no timers. -/
def initSched : Sched := { intervalHandle := none, timers := [], fresh := 0 }

/-- Observable pipeline triggers emitted by scheduler operations. -/
inductive Event where
  | runOnce
deriving DecidableEq

/-- `startPusher` of lines 157-166: a held handle makes it a no-op;
otherwise it registers one repeating timer whose callback is a pipeline
run, stores the handle, and fires one immediate pipeline run. -/
def startPusher (s : Sched) : Sched × List Event :=
  match s.intervalHandle with
  | some _ => (s, [])
  | none =>
    ({ intervalHandle := some s.fresh
       timers := s.timers ++ [s.fresh]
       fresh := s.fresh + 1 }, [.runOnce])

/-- Response of the stop handler. -/
inductive StopResp where
  | notRunning
  | stopped
deriving DecidableEq

/-- HTTP status the stop handler answers with (lines 178-189). -/
def stopStatusCode : StopResp → Nat
  | .notRunning => 400
  | .stopped => 200

/-- The `/stop` handler of lines 178-189: with no handle it reports
`not_running` (status 400) and changes nothing; otherwise it cancels the
held timer and clears the handle. -/
def stopPusher (s : Sched) : Sched × StopResp :=
  match s.intervalHandle with
  | none => (s, .notRunning)
  | some h =>
    ({ intervalHandle := none
       timers := s.timers.filter (fun t => t ≠ h)
       fresh := s.fresh }, .stopped)

/-- Pipeline runs fired by one elapsed interval: each live repeating timer
invokes its callback once. -/
def tickEvents (s : Sched) : List Event := s.timers.map (fun _ => .runOnce)

/-- Operations the control surface and the timer subject the scheduler
state to. -/
inductive SchedOp where
  | start
  | stop
  | tick

/-- State transition of one operation (a tick leaves the state unchanged). -/
def applyOp (s : Sched) : SchedOp → Sched
  | .start => (startPusher s).1
  | .stop => (stopPusher s).1
  | .tick => s

/-- Scheduler state reached from process start by a sequence of operations. -/
def runOps (ops : List SchedOp) : Sched :=
  ops.foldl applyOp initSched

/-- Consistency of the scheduler state: the live timers are exactly the
one named by the held handle (none when idle). -/
def schedInv (s : Sched) : Prop :=
  s.timers = s.intervalHandle.toList

/-- Whether an evaluation finished without a raised fault. -/
def exceptIsOk {ε α : Type} : Except ε α → Bool
  | .ok _ => true
  | .error _ => false

/-- A primitive-or-null JSON value: not an object, not an array, and not
the missing-key marker. -/
def primitiveOrNull : JVal → Bool
  | .obj _ => false
  | .arr _ => false
  | .undefined => false
  | _ => true

/-- Render an optional number the way the record stores it: null or the
number. -/
def encOptNum : Option JNum → JVal
  | none => .null
  | some n => .num n

/-- Render an optional string the way the record stores it. -/
def encOptStr : Option String → JVal
  | none => .null
  | some s => .str s

/-- Key-value pairs of the `rawPayload` object literal of lines 70-78,
in source order. -/
def encodeRawPayloadFields (p : RawPayload) : List (String × JVal) :=
  [("icon", encOptStr p.icon),
   ("humidity", encOptNum p.humidity),
   ("pressure", encOptNum p.pressure),
   ("wind_gust", encOptNum p.wind_gust),
   ("wind_deg", encOptNum p.wind_deg),
   ("rain_3h", encOptNum p.rain_3h),
   ("snow_3h", encOptNum p.snow_3h)]

/-- Key-value pairs of the object literal returned at lines 80-89,
in source order. -/
def encodeNormalizedFields (r : Normalized) : List (String × JVal) :=
  [("observed_at", .str r.observed_at),
   ("location", .str r.location),
   ("clouds", encOptNum r.clouds),
   ("main", encOptNum r.main),
   ("precipitation", encOptNum r.precipitation),
   ("weather", encOptStr r.weather),
   ("wind", encOptNum r.wind),
   ("raw_payload", .obj (encodeRawPayloadFields r.raw_payload))]

/-- The normalized record as the JSON value the program hands the store. -/
def encodeNormalized (r : Normalized) : JVal :=
  .obj (encodeNormalizedFields r)

/-- The whitelisted scalar keys of `raw_payload`. -/
def rawPayloadKeys : List String :=
  ["icon", "humidity", "pressure", "wind_gust", "wind_deg", "rain_3h", "snow_3h"]

/-- Raw document whose temperature carries the `"N/A"` sentinel. -/
def naTempDoc : JVal :=
  .obj [("main", .obj [("temperature_c", .str "N/A")])]

/-- Raw document fields carrying the sentinel in the rain amount and in the
temperature. -/
def naMixedFs : List (String × JVal) :=
  [("precipitation", .obj [("rain_3h_mm", .str "N/A")]),
   ("main", .obj [("temperature_c", .str "N/A")])]

/-- Record `mapToPrimitives` produces for `naMixedFs` under `dateModel`. -/
def naMixedRec : Normalized :=
  { observed_at := dateModel.iso dateModel.nowMs
    location := "Unknown"
    clouds := none
    main := some .nan
    precipitation := none
    weather := none
    wind := none
    raw_payload :=
      { icon := none, humidity := none, pressure := none, wind_gust := none
        wind_deg := none, rain_3h := none, snow_3h := none } }

/-- Raw document whose observation time is truthy but not a parseable date. -/
def badDateDoc : JVal :=
  .obj [("datetime_utc", .str "not-a-date")]

/-- The end-to-end scenario document of the specification:
temperature 21.5, humidity `"N/A"`, weather description `"Clear"`. -/
def scenarioDoc : JVal :=
  .obj [("main", .obj [("temperature_c", .num (.num (43 / 2))),
                       ("humidity_percent", .str "N/A")]),
        ("weather", .obj [("description", .str "Clear")])]

/-- Record `mapToPrimitives` produces for `scenarioDoc` under `dateModel`. -/
def scenarioRec : Normalized :=
  { observed_at := dateModel.iso dateModel.nowMs
    location := "Unknown"
    clouds := none
    main := some (.num (43 / 2))
    precipitation := none
    weather := some "Clear"
    wind := none
    raw_payload :=
      { icon := none, humidity := some .nan, pressure := none, wind_gust := none
        wind_deg := none, rain_3h := none, snow_3h := none } }

/-- Raw document fields with both precipitation amounts present. -/
def bothPrecFs : List (String × JVal) :=
  [("precipitation", .obj [("rain_3h_mm", .num (.num 1)),
                           ("snow_3h_mm", .num (.num 2))])]

/-- Record `mapToPrimitives` produces for `bothPrecFs` under `dateModel`. -/
def bothPrecRec : Normalized :=
  { observed_at := dateModel.iso dateModel.nowMs
    location := "Unknown"
    clouds := none
    main := none
    precipitation := some (.num 1)
    weather := none
    wind := none
    raw_payload :=
      { icon := none, humidity := none, pressure := none, wind_gust := none
        wind_deg := none, rain_3h := some (.num 1), snow_3h := some (.num 2) } }

/-- Raw document fields with empty-string text fields and zero-valued
numeric fields everywhere. -/
def edgeFs : List (String × JVal) :=
  [("datetime_utc", .str ""),
   ("location", .obj [("name", .str "")]),
   ("weather", .obj [("description", .str ""), ("icon", .str "")]),
   ("clouds", .obj [("cloudiness_percent", .num (.num 0))]),
   ("main", .obj [("temperature_c", .num (.num 0)),
                  ("humidity_percent", .num (.num 0)),
                  ("pressure_hpa", .num (.num 0))]),
   ("wind", .obj [("speed_ms", .num (.num 0)), ("gust_ms", .num (.num 0)),
                  ("direction_degrees", .num (.num 0))])]

/-- Record `mapToPrimitives` produces for `edgeFs` under `dateModel`. -/
def edgeRec : Normalized :=
  { observed_at := dateModel.iso dateModel.nowMs
    location := "Unknown"
    clouds := some (.num 0)
    main := some (.num 0)
    precipitation := none
    weather := none
    wind := some (.num 0)
    raw_payload :=
      { icon := none, humidity := some (.num 0), pressure := some (.num 0)
        wind_gust := some (.num 0), wind_deg := some (.num 0)
        rain_3h := none, snow_3h := none } }

/-- Environment whose transport call fails. -/
def transportEnv : Env :=
  { date := dateModel, fetch := .transportError "network down", upsertError := none }

/-- Environment delivering the scenario document with an ok status and an
accepting store. -/
def okEnv : Env :=
  { date := dateModel, fetch := .response 200 (.json scenarioDoc), upsertError := none }

/-- Pure normal form of one normalizer run on a value that is not
null/undefined: resolve the observation time, then build the record. -/
def mapCore (d : DateSpec) (w : JVal) : Except JsError Normalized :=
  match (if truthy (jsGet w "datetime_utc") then d.parse (jsGet w "datetime_utc")
         else some d.nowMs) with
  | none => .error .rangeError
  | some ms =>
    .ok (buildRecord d ms (jsGet w "location") (jsGet w "clouds") (jsGet w "main")
          (jsGet w "precipitation") (jsGet w "weather") (jsGet w "wind"))

theorem jsGet_obj (fs : List (String × JVal)) (k : String) :
    jsGet (.obj fs) k = lookupField fs k := rfl

theorem mapToPrimitives_undefined (d : DateSpec) :
    mapToPrimitives d .undefined = .error .typeError := rfl

theorem mapToPrimitives_null (d : DateSpec) :
    mapToPrimitives d .null = .error .typeError := rfl

theorem mapToPrimitives_eq_core (d : DateSpec) (raw : JVal)
    (h1 : raw ≠ .undefined) (h2 : raw ≠ .null) :
    mapToPrimitives d raw = mapCore d raw := by
  cases raw with
  | undefined => exact absurd rfl h1
  | null => exact absurd rfl h2
  | bool b => rfl
  | num n => rfl
  | str s => rfl
  | obj fs => rfl
  | arr es => rfl

theorem mapCore_ok (d : DateSpec) (w : JVal) (r : Normalized)
    (h : mapCore d w = .ok r) :
    ∃ ms, (if truthy (jsGet w "datetime_utc") then d.parse (jsGet w "datetime_utc")
           else some d.nowMs) = some ms ∧
      r = buildRecord d ms (jsGet w "location") (jsGet w "clouds") (jsGet w "main")
            (jsGet w "precipitation") (jsGet w "weather") (jsGet w "wind") := by
  unfold mapCore at h
  split at h
  · exact absurd h (by simp)
  · rename_i ms heq
    exact ⟨ms, heq, by injection h with h; exact h.symm⟩

theorem mapToPrimitives_ok_shape (d : DateSpec) (raw : JVal) (r : Normalized)
    (h : mapToPrimitives d raw = .ok r) :
    ∃ ms, r = buildRecord d ms (jsGet raw "location") (jsGet raw "clouds")
        (jsGet raw "main") (jsGet raw "precipitation") (jsGet raw "weather")
        (jsGet raw "wind") := by
  have h1 : raw ≠ .undefined := by rintro rfl; rw [mapToPrimitives_undefined] at h; cases h
  have h2 : raw ≠ .null := by rintro rfl; rw [mapToPrimitives_null] at h; cases h
  rw [mapToPrimitives_eq_core d raw h1 h2] at h
  obtain ⟨ms, _, hr⟩ := mapCore_ok d raw r h
  exact ⟨ms, hr⟩

theorem buildRecord_precipitation (d : DateSpec) (ms : Int)
    (locv cloudsv mainv precv weatherv windv : JVal) :
    (buildRecord d ms locv cloudsv mainv precv weatherv windv).precipitation =
      (naNumField precv "rain_3h_mm").or (naNumField precv "snow_3h_mm") := rfl

theorem prec_or_of_ok (d : DateSpec) (raw : JVal) (r : Normalized)
    (h : mapToPrimitives d raw = .ok r) :
    r.precipitation = r.raw_payload.rain_3h.or r.raw_payload.snow_3h := by
  obtain ⟨ms, rfl⟩ := mapToPrimitives_ok_shape d raw r h
  rfl

theorem jsNumber_na (v : JVal) (h : isNA v = true) : jsNumber v = .nan := by
  cases v with
  | str s =>
    have : s = "N/A" := of_decide_eq_true h
    subst this
    decide
  | undefined => cases h
  | null => cases h
  | bool b => cases h
  | num n => cases h
  | obj fs => cases h
  | arr es => cases h

theorem schedInv_applyOp (s : Sched) (op : SchedOp) (h : schedInv s) :
    schedInv (applyOp s op) := by
  cases op with
  | start =>
    unfold schedInv at h ⊢
    unfold applyOp startPusher
    cases hh : s.intervalHandle with
    | none => simp [hh] at h; simp [h]
    | some t => simp [hh] at h ⊢; exact h
  | stop =>
    unfold schedInv at h ⊢
    unfold applyOp stopPusher
    cases hh : s.intervalHandle with
    | none => simp [hh] at h ⊢; exact h
    | some t => simp [hh] at h; simp [h]
  | tick => exact h

theorem schedInv_foldl (ops : List SchedOp) (s : Sched) (h : schedInv s) :
    schedInv (ops.foldl applyOp s) := by
  induction ops generalizing s with
  | nil => exact h
  | cons op rest ih => exact ih _ (schedInv_applyOp s op h)

theorem schedInv_runOps (ops : List SchedOp) : schedInv (runOps ops) :=
  schedInv_foldl ops initSched rfl

/-- Store rows all carrying the target id, at most one of them. -/
def storeInv (tid : String) (s : Store) : Prop :=
  (∀ r ∈ s, r.id = tid) ∧ s.length ≤ 1

theorem applyUpsert_inv (tid : String) (s : Store) (r : DbRecord)
    (hr : r.id = tid) (h : storeInv tid s) : storeInv tid (applyUpsert s r) := by
  unfold applyUpsert
  split
  · refine ⟨?_, by simpa using h.2⟩
    intro x hx
    obtain ⟨y, hy, hxy⟩ := List.mem_map.1 hx
    by_cases hid : y.id = r.id
    · simp [hid] at hxy; rw [← hxy]; exact hr
    · simp [hid] at hxy; rw [← hxy]; exact h.1 y hy
  · rename_i hany
    cases s with
    | nil => exact ⟨by simpa using hr, by simp⟩
    | cons a rest =>
      exfalso
      apply hany
      refine List.any_eq_true.2 ⟨a, List.mem_cons_self a rest, ?_⟩
      have : a.id = tid := h.1 a (List.mem_cons_self a rest)
      simp [this, hr]

theorem pushObservation_store (tid : String) (env : Env) (s : Store) :
    (pushObservation tid env s).2 = s ∨
      ∃ rec, rec.id = tid ∧ (pushObservation tid env s).2 = applyUpsert s rec := by
  obtain ⟨date, fetch, upsertError⟩ := env
  cases fetch with
  | transportError m => exact .inl rfl
  | response status body =>
    by_cases hst : status < 200 ∨ 300 ≤ status
    · exact .inl (by simp [pushObservation, hst])
    · cases body with
      | invalidJson m => exact .inl (by simp [pushObservation, hst])
      | json v =>
        cases hm : mapToPrimitives date v with
        | error e => exact .inl (by simp [pushObservation, hst, hm])
        | ok payload =>
          cases upsertError with
          | some m => exact .inl (by simp [pushObservation, hst, hm])
          | none =>
            right
            refine ⟨{ id := tid, observed_at := payload.observed_at,
                      location := payload.location, location_point := none,
                      clouds := payload.clouds, main := payload.main,
                      precipitation := payload.precipitation,
                      weather := payload.weather, wind := payload.wind,
                      raw_payload := payload.raw_payload }, rfl, ?_⟩
            simp [pushObservation, hst, hm]

theorem storeInv_push (tid : String) (env : Env) (s : Store)
    (h : storeInv tid s) : storeInv tid (pushObservation tid env s).2 := by
  rcases pushObservation_store tid env s with he | ⟨rec, hid, he⟩
  · rwa [he]
  · rw [he]; exact applyUpsert_inv tid s rec hid h

theorem storeInv_runPushes (tid : String) (envs : List Env) (s : Store)
    (h : storeInv tid s) : storeInv tid (runPushes tid envs s) := by
  unfold runPushes
  induction envs generalizing s with
  | nil => exact h
  | cons e rest ih => exact ih _ (storeInv_push tid e s h)

theorem isNA_not_undefined (v : JVal) (h : isNA v = true) : isUndefined v = false := by
  cases v <;> simp_all [isNA, isUndefined]

theorem observed_of_falsy_dt (d : DateSpec) (fs : List (String × JVal)) (r : Normalized)
    (h : mapToPrimitives d (.obj fs) = .ok r)
    (hdt : truthy (lookupField fs "datetime_utc") = false) :
    r.observed_at = d.iso d.nowMs := by
  rw [mapToPrimitives_eq_core d _ (fun hh => by cases hh) (fun hh => by cases hh)] at h
  simp only [mapCore, jsGet_obj, hdt, Bool.false_eq_true, if_false] at h
  injection h with h
  rw [← h]
  rfl

/-- C1, counterexample: the claim says the literal string `"N/A"` in any
numeric source field (temperature among them) normalizes to null; at the
document whose `main.temperature_c` is `"N/A"`, the normalized `main` field
is `NaN` (`Number("N/A")`), not null, because lines 29-31 apply no sentinel
check. -/
theorem c1_na_counterexample :
    (mapToPrimitives dateModel naTempDoc).toOption.map Normalized.main =
      some (some JNum.nan) := by decide

/-- C1, amended: the `"N/A"` sentinel normalizes to null exactly in the two
precipitation amounts (rain-3h, snow-3h, lines 41-47); in each of the seven
other numeric source fields a present `"N/A"` is coerced to `NaN`. -/
theorem c1_na_amended (d : DateSpec) (fs : List (String × JVal)) (r : Normalized)
    (h : mapToPrimitives d (.obj fs) = .ok r) :
    (truthy (lookupField fs "precipitation") = true →
      isNA (jsGet (lookupField fs "precipitation") "rain_3h_mm") = true →
      r.raw_payload.rain_3h = none) ∧
    (truthy (lookupField fs "precipitation") = true →
      isNA (jsGet (lookupField fs "precipitation") "snow_3h_mm") = true →
      r.raw_payload.snow_3h = none) ∧
    (truthy (lookupField fs "clouds") = true →
      isNA (jsGet (lookupField fs "clouds") "cloudiness_percent") = true →
      r.clouds = some JNum.nan) ∧
    (truthy (lookupField fs "main") = true →
      isNA (jsGet (lookupField fs "main") "temperature_c") = true →
      r.main = some JNum.nan) ∧
    (truthy (lookupField fs "main") = true →
      isNA (jsGet (lookupField fs "main") "humidity_percent") = true →
      r.raw_payload.humidity = some JNum.nan) ∧
    (truthy (lookupField fs "main") = true →
      isNA (jsGet (lookupField fs "main") "pressure_hpa") = true →
      r.raw_payload.pressure = some JNum.nan) ∧
    (truthy (lookupField fs "wind") = true →
      isNA (jsGet (lookupField fs "wind") "speed_ms") = true →
      r.wind = some JNum.nan) ∧
    (truthy (lookupField fs "wind") = true →
      isNA (jsGet (lookupField fs "wind") "gust_ms") = true →
      r.raw_payload.wind_gust = some JNum.nan) ∧
    (truthy (lookupField fs "wind") = true →
      isNA (jsGet (lookupField fs "wind") "direction_degrees") = true →
      r.raw_payload.wind_deg = some JNum.nan) := by
  obtain ⟨ms, rfl⟩ := mapToPrimitives_ok_shape d (.obj fs) r h
  refine ⟨?_, ?_, ?_, ?_, ?_, ?_, ?_, ?_, ?_⟩ <;>
    (intro ht hna;
     simp [buildRecord, numField, naNumField, jsGet_obj, ht,
           isNA_not_undefined _ hna, jsNumber_na _ hna, hna])

/-- C1, witness: a document carrying `"N/A"` in both the rain amount and
the temperature; the rain amount becomes null while the temperature becomes
NaN. -/
theorem c1_na_amended_witness :
    mapToPrimitives dateModel (JVal.obj naMixedFs) = .ok naMixedRec ∧
    naMixedRec.raw_payload.rain_3h = none ∧
    naMixedRec.main = some JNum.nan := by
  have h : mapToPrimitives dateModel (JVal.obj naMixedFs) = .ok naMixedRec := by rfl
  refine ⟨h, ?_, ?_⟩
  · exact (c1_na_amended dateModel naMixedFs naMixedRec h).1 (by decide) (by decide)
  · exact (c1_na_amended dateModel naMixedFs naMixedRec h).2.2.2.1 (by decide) (by decide)

/-- C2, counterexample: the claim says normalize never raises however
malformed the document; at the document whose `datetime_utc` is the truthy
but unparseable string `"not-a-date"`, line 19 builds an Invalid Date and
line 81's `toISOString()` raises a RangeError. -/
theorem c2_total_counterexample :
    mapToPrimitives dateModel badDateDoc = .error JsError.rangeError := by rfl

/-- C2, amended: for every object document whose `datetime_utc`, when
truthy, is parseable as a date, normalize returns a record without raising;
missing or wrong-typed nested fields never raise (a truthy unparseable
`datetime_utc` is the only faulting input besides a null document). -/
theorem c2_total_amended (d : DateSpec) (fs : List (String × JVal))
    (h : truthy (lookupField fs "datetime_utc") = true →
         (d.parse (lookupField fs "datetime_utc")).isSome = true) :
    exceptIsOk (mapToPrimitives d (JVal.obj fs)) = true := by
  rw [mapToPrimitives_eq_core d _ (fun hh => by cases hh) (fun hh => by cases hh)]
  unfold mapCore
  by_cases ht : truthy (lookupField fs "datetime_utc") = true
  · obtain ⟨ms, hms⟩ := Option.isSome_iff_exists.1 (h ht)
    simp [jsGet_obj, ht, hms, exceptIsOk]
  · have ht' : truthy (lookupField fs "datetime_utc") = false := by
      simpa using ht
    simp [jsGet_obj, ht', exceptIsOk]

/-- C2, witness: the empty document normalizes without raising. -/
theorem c2_total_amended_witness :
    exceptIsOk (mapToPrimitives dateModel (JVal.obj [])) = true :=
  c2_total_amended dateModel [] (by decide)

/-- C7, counterexample: the claim expects `raw_payload.humidity` to be null
for the scenario document; the code coerces the present `"N/A"` humidity
with `Number(..)` (line 33-35, no sentinel check), so it is NaN. -/
theorem c7_scenario_counterexample :
    (mapToPrimitives dateModel scenarioDoc).toOption.map
        (fun r => r.raw_payload.humidity) = some (some JNum.nan) := by decide

/-- C7, amended: the scenario document normalizes to main 21.5, weather
"Clear", location "Unknown", clouds/precipitation/wind null, and
`raw_payload.humidity` NaN (rather than the claimed null); observation time
falls back to the ingestion instant. -/
theorem c7_scenario_amended :
    mapToPrimitives dateModel scenarioDoc = .ok scenarioRec := by rfl

/-- C8: the normalized precipitation is the rain-3h value when that is
non-null, else the snow-3h value when that is non-null, else null
(first-present-wins, line 85). -/
theorem c8_precipitation (d : DateSpec) (raw : JVal) (r : Normalized)
    (h : mapToPrimitives d raw = .ok r) :
    (∀ x, r.raw_payload.rain_3h = some x → r.precipitation = some x) ∧
    (r.raw_payload.rain_3h = none →
      ∀ y, r.raw_payload.snow_3h = some y → r.precipitation = some y) ∧
    (r.raw_payload.rain_3h = none → r.raw_payload.snow_3h = none →
      r.precipitation = none) := by
  have hp := prec_or_of_ok d raw r h
  refine ⟨?_, ?_, ?_⟩
  · intro x hx; rw [hp, hx]; rfl
  · intro hn y hy; rw [hp, hn, hy]; rfl
  · intro hn hsn; rw [hp, hn, hsn]; rfl

/-- C8, witness: with rain-3h 1 and snow-3h 2 both present, precipitation
is the rain value 1, not the snow value and not a sum. -/
theorem c8_precipitation_witness :
    mapToPrimitives dateModel (JVal.obj bothPrecFs) = .ok bothPrecRec ∧
    bothPrecRec.precipitation = some (JNum.num 1) := by
  have h : mapToPrimitives dateModel (JVal.obj bothPrecFs) = .ok bothPrecRec := by rfl
  exact ⟨h, (c8_precipitation dateModel (JVal.obj bothPrecFs) bothPrecRec h).1
    (JNum.num 1) rfl⟩

/-- C3: one pipeline run always returns a result value, and that result is
the failure variant whenever the transport fails, the status is outside
200-299, the body is not valid JSON, or the store rejects the upsert; when
none of the stages fails the result is the success variant. -/
theorem c3_runOnce_result (tid : String) (env : Env) (store : Store) :
    (∀ m, env.fetch = .transportError m →
        isErrResult (pushObservation tid env store).1 = true) ∧
    (∀ status body, env.fetch = .response status body →
        status < 200 ∨ 300 ≤ status →
        isErrResult (pushObservation tid env store).1 = true) ∧
    (∀ status m, env.fetch = .response status (.invalidJson m) →
        isErrResult (pushObservation tid env store).1 = true) ∧
    (env.upsertError.isSome = true →
        isErrResult (pushObservation tid env store).1 = true) ∧
    ((∃ status v, env.fetch = .response status (.json v) ∧
        200 ≤ status ∧ status < 300 ∧
        exceptIsOk (mapToPrimitives env.date v) = true ∧ env.upsertError = none) →
        isErrResult (pushObservation tid env store).1 = false) := by
  obtain ⟨date, fetch, upsertError⟩ := env
  refine ⟨?_, ?_, ?_, ?_, ?_⟩
  · intro m hm
    subst hm
    simp [pushObservation, isErrResult]
  · intro status body hb hst
    subst hb
    simp only [pushObservation]
    rw [if_pos hst]
    simp [isErrResult]
  · intro status m hb
    subst hb
    simp only [pushObservation]
    split
    · simp [isErrResult]
    · simp [isErrResult]
  · intro hu
    cases fetch with
    | transportError m => simp [pushObservation, isErrResult]
    | response status body =>
      simp only [pushObservation]
      split
      · simp [isErrResult]
      · cases body with
        | invalidJson m => simp [isErrResult]
        | json v =>
          cases hm : mapToPrimitives date v with
          | error e => simp [hm, isErrResult]
          | ok payload =>
            cases hup : upsertError with
            | none => rw [hup] at hu; simp at hu
            | some m => simp [hm, hup, isErrResult]
  · rintro ⟨status, v, hb, h1, h2, hok, hup⟩
    subst hb
    subst hup
    have hst : ¬(status < 200 ∨ 300 ≤ status) := by omega
    simp only [pushObservation]
    rw [if_neg hst]
    cases hm : mapToPrimitives date v with
    | error e => rw [hm] at hok; simp [exceptIsOk] at hok
    | ok payload => simp [hm, isErrResult]

/-- C3, witness: a failed transport call yields the failure result. -/
theorem c3_runOnce_result_witness :
    isErrResult (pushObservation "target" transportEnv []).1 = true :=
  (c3_runOnce_result "target" transportEnv []).1 "network down" rfl

/-- C4: every write a pipeline run performs goes through the single upsert
keyed on the configured target id (the store is otherwise untouched), so
after any sequence of runs the store holds only rows with that id and at
most one of them. -/
theorem c4_single_row (tid : String) (envs : List Env) :
    (∀ env store, (pushObservation tid env store).2 = store ∨
        ∃ rec, rec.id = tid ∧
          (pushObservation tid env store).2 = applyUpsert store rec) ∧
    (∀ r ∈ runPushes tid envs [], r.id = tid) ∧
    (runPushes tid envs []).length ≤ 1 := by
  have hinv := storeInv_runPushes tid envs [] ⟨by simp, by simp⟩
  exact ⟨fun env store => pushObservation_store tid env store, hinv.1, hinv.2⟩

/-- C4, witness: after a successful run followed by a failed one the store
holds at most one row. -/
theorem c4_single_row_witness :
    (runPushes "target" [okEnv, transportEnv] []).length ≤ 1 :=
  (c4_single_row "target" [okEnv, transportEnv]).2.2

/-- C5: on every reachable scheduler state, `start()` on a running
scheduler is a no-op that leaves the single live timer (so two consecutive
starts never hold two timers); `start()` on an idle scheduler installs
exactly one repeating timer, fires one immediate pipeline run, and each
subsequent tick fires exactly one pipeline run. -/
theorem c5_start_idempotent (ops : List SchedOp) :
    ((runOps ops).intervalHandle.isSome = true →
        startPusher (runOps ops) = (runOps ops, []) ∧
        (runOps ops).timers.length = 1) ∧
    ((runOps ops).intervalHandle = none →
        (startPusher (runOps ops)).1.timers.length = 1 ∧
        (startPusher (runOps ops)).2 = [Event.runOnce] ∧
        tickEvents (startPusher (runOps ops)).1 = [Event.runOnce]) ∧
    (startPusher (startPusher (runOps ops)).1).1.timers.length = 1 ∧
    tickEvents (startPusher (startPusher (runOps ops)).1).1 = [Event.runOnce] := by
  have hinv := schedInv_runOps ops
  revert hinv
  generalize runOps ops = s
  intro hinv
  obtain ⟨ih, timers, fresh⟩ := s
  unfold schedInv at hinv
  cases ih with
  | none =>
    simp only [Option.toList] at hinv
    subst hinv
    refine ⟨fun hh => by simp at hh, fun _ => ?_, ?_, ?_⟩ <;>
      simp [startPusher, tickEvents]
  | some t =>
    simp only [Option.toList] at hinv
    subst hinv
    refine ⟨fun _ => ⟨rfl, rfl⟩, fun hh => by simp at hh, ?_, ?_⟩ <;>
      simp [startPusher, tickEvents]

/-- C5, witness: starting an already started scheduler changes nothing and
keeps exactly one timer. -/
theorem c5_start_idempotent_witness :
    startPusher (runOps [SchedOp.start]) = (runOps [SchedOp.start], []) ∧
    (runOps [SchedOp.start]).timers.length = 1 :=
  (c5_start_idempotent [SchedOp.start]).1 (by decide)

/-- C6: on every reachable scheduler state, `stop()` while idle answers the
not-running outcome (status 400, no fault) and leaves the state unchanged;
`stop()` while running cancels the one live timer and returns to idle; the
state stays consistent under arbitrary start/stop/tick sequences. -/
theorem c6_stop (ops : List SchedOp) :
    ((runOps ops).intervalHandle = none →
        stopPusher (runOps ops) = (runOps ops, StopResp.notRunning)) ∧
    (∀ h, (runOps ops).intervalHandle = some h →
        (stopPusher (runOps ops)).2 = StopResp.stopped ∧
        (stopPusher (runOps ops)).1.intervalHandle = none ∧
        (stopPusher (runOps ops)).1.timers = []) ∧
    stopStatusCode (stopPusher (runOps ops)).2 =
      (if (runOps ops).intervalHandle.isSome then 200 else 400) ∧
    schedInv (runOps ops) := by
  have hinv := schedInv_runOps ops
  revert hinv
  generalize runOps ops = s
  intro hinv
  refine ⟨?_, ?_, ?_, hinv⟩
  · obtain ⟨ih, timers, fresh⟩ := s
    intro hh
    cases hh
    rfl
  · intro h hh
    obtain ⟨ih, timers, fresh⟩ := s
    cases hh
    unfold schedInv at hinv
    simp only [Option.toList] at hinv
    subst hinv
    refine ⟨rfl, rfl, ?_⟩
    simp [stopPusher]
  · obtain ⟨ih, timers, fresh⟩ := s
    cases ih with
    | none => rfl
    | some t => rfl

/-- C6, witness: stopping the freshly started process state reports
not-running without a fault and changes nothing. -/
theorem c6_stop_witness :
    stopPusher (runOps []) = (runOps [], StopResp.notRunning) :=
  (c6_stop []).1 rfl

/-- C9: every field of the normalized record is a primitive or null except
the `raw_payload` object, whose entries carry exactly the seven whitelisted
scalar keys with primitive-or-null values; no nested input object and no
non-enumerated key survives. -/
theorem c9_flat_output (d : DateSpec) (raw : JVal) (r : Normalized)
    (h : mapToPrimitives d raw = .ok r) :
    (∀ k v, (k, v) ∈ encodeNormalizedFields r →
        k = "raw_payload" ∨ primitiveOrNull v = true) ∧
    (∀ k v, (k, v) ∈ encodeRawPayloadFields r.raw_payload →
        k ∈ rawPayloadKeys ∧ primitiveOrNull v = true) := by
  obtain ⟨ms, rfl⟩ := mapToPrimitives_ok_shape d raw r h
  generalize buildRecord d ms (jsGet raw "location") (jsGet raw "clouds")
    (jsGet raw "main") (jsGet raw "precipitation") (jsGet raw "weather")
    (jsGet raw "wind") = r
  refine ⟨?_, ?_⟩
  · intro k v hm
    simp only [encodeNormalizedFields, List.mem_cons, List.not_mem_nil, or_false,
      Prod.mk.injEq] at hm
    rcases hm with hkv | hkv | hkv | hkv | hkv | hkv | hkv | hkv <;>
      obtain ⟨rfl, rfl⟩ := hkv
    · right; rfl
    · right; rfl
    · right; cases r.clouds <;> rfl
    · right; cases r.main <;> rfl
    · right; cases r.precipitation <;> rfl
    · right; cases r.weather <;> rfl
    · right; cases r.wind <;> rfl
    · left; rfl
  · intro k v hm
    simp only [encodeRawPayloadFields, List.mem_cons, List.not_mem_nil, or_false,
      Prod.mk.injEq] at hm
    rcases hm with hkv | hkv | hkv | hkv | hkv | hkv | hkv <;>
      obtain ⟨rfl, rfl⟩ := hkv <;>
      refine ⟨by simp [rawPayloadKeys], ?_⟩
    · cases r.raw_payload.icon <;> rfl
    · cases r.raw_payload.humidity <;> rfl
    · cases r.raw_payload.pressure <;> rfl
    · cases r.raw_payload.wind_gust <;> rfl
    · cases r.raw_payload.wind_deg <;> rfl
    · cases r.raw_payload.rain_3h <;> rfl
    · cases r.raw_payload.snow_3h <;> rfl

/-- C9, witness: at the scenario record, the `main` entry is primitive-or-null
and the `humidity` entry is a whitelisted primitive-or-null. -/
theorem c9_flat_output_witness :
    ("main" = "raw_payload" ∨ primitiveOrNull (encOptNum scenarioRec.main) = true) ∧
    ("humidity" ∈ rawPayloadKeys ∧
      primitiveOrNull (encOptNum scenarioRec.raw_payload.humidity) = true) := by
  have h : mapToPrimitives dateModel scenarioDoc = .ok scenarioRec := by rfl
  have hc := c9_flat_output dateModel scenarioDoc scenarioRec h
  refine ⟨?_, ?_⟩
  · exact hc.1 "main" (encOptNum scenarioRec.main) (by simp [encodeNormalizedFields])
  · exact hc.2 "humidity" (encOptNum scenarioRec.raw_payload.humidity)
      (by simp [encodeRawPayloadFields])

/-- C10: string-valued source fields are tested for truthiness, so a
present empty-string description or icon normalizes to null, an
empty-string location name to "Unknown", and an empty-string datetime to
the ingestion time; numeric fields are tested for presence only, so a
present numeric 0 is preserved as 0 in each of the seven plain numeric
fields. -/
theorem c10_truthiness_vs_presence (d : DateSpec) (fs : List (String × JVal))
    (r : Normalized) (h : mapToPrimitives d (.obj fs) = .ok r) :
    (truthy (lookupField fs "weather") = true →
      jsGet (lookupField fs "weather") "description" = JVal.str "" →
      r.weather = none) ∧
    (truthy (lookupField fs "weather") = true →
      jsGet (lookupField fs "weather") "icon" = JVal.str "" →
      r.raw_payload.icon = none) ∧
    (truthy (lookupField fs "location") = true →
      jsGet (lookupField fs "location") "name" = JVal.str "" →
      r.location = "Unknown") ∧
    (lookupField fs "datetime_utc" = JVal.str "" →
      r.observed_at = d.iso d.nowMs) ∧
    (truthy (lookupField fs "clouds") = true →
      jsGet (lookupField fs "clouds") "cloudiness_percent" = JVal.num (JNum.num 0) →
      r.clouds = some (JNum.num 0)) ∧
    (truthy (lookupField fs "main") = true →
      jsGet (lookupField fs "main") "temperature_c" = JVal.num (JNum.num 0) →
      r.main = some (JNum.num 0)) ∧
    (truthy (lookupField fs "main") = true →
      jsGet (lookupField fs "main") "humidity_percent" = JVal.num (JNum.num 0) →
      r.raw_payload.humidity = some (JNum.num 0)) ∧
    (truthy (lookupField fs "main") = true →
      jsGet (lookupField fs "main") "pressure_hpa" = JVal.num (JNum.num 0) →
      r.raw_payload.pressure = some (JNum.num 0)) ∧
    (truthy (lookupField fs "wind") = true →
      jsGet (lookupField fs "wind") "speed_ms" = JVal.num (JNum.num 0) →
      r.wind = some (JNum.num 0)) ∧
    (truthy (lookupField fs "wind") = true →
      jsGet (lookupField fs "wind") "gust_ms" = JVal.num (JNum.num 0) →
      r.raw_payload.wind_gust = some (JNum.num 0)) ∧
    (truthy (lookupField fs "wind") = true →
      jsGet (lookupField fs "wind") "direction_degrees" = JVal.num (JNum.num 0) →
      r.raw_payload.wind_deg = some (JNum.num 0)) := by
  have hobs : lookupField fs "datetime_utc" = JVal.str "" →
      r.observed_at = d.iso d.nowMs := by
    intro hdt
    exact observed_of_falsy_dt d fs r h (by rw [hdt]; rfl)
  obtain ⟨ms, rfl⟩ := mapToPrimitives_ok_shape d (.obj fs) r h
  refine ⟨?_, ?_, ?_, hobs, ?_, ?_, ?_, ?_, ?_, ?_, ?_⟩ <;>
    (intro ht hv;
     simp only [buildRecord, numField, strField, computeLocation, jsGet_obj, ht, hv];
     simp [truthy, isUndefined, jsNumber])

/-- C10, witness: the edge document with empty strings and zeros normalizes
with null weather, Unknown location, ingestion-time observation instant,
and zeros preserved. -/
theorem c10_truthiness_witness :
    mapToPrimitives dateModel (JVal.obj edgeFs) = .ok edgeRec ∧
    edgeRec.weather = none ∧ edgeRec.location = "Unknown" ∧
    edgeRec.clouds = some (JNum.num 0) ∧
    edgeRec.observed_at = dateModel.iso dateModel.nowMs := by
  have h : mapToPrimitives dateModel (JVal.obj edgeFs) = .ok edgeRec := by rfl
  have hc := c10_truthiness_vs_presence dateModel edgeFs edgeRec h
  exact ⟨h, hc.1 (by decide) (by rfl), hc.2.2.1 (by decide) (by rfl),
    hc.2.2.2.2.1 (by decide) (by rfl), hc.2.2.2.1 (by rfl)⟩

end ClientApi
